import Mathlib

/-!
Shallow embedding of the route-optimization client
(frontend/src/services/api.js, frontend/src/pages/Home.jsx,
frontend/src/pages/Chat.jsx).

Network effects are modelled explicitly: every API function returns its
result together with the list of HTTP requests it issued, and backend
responses are supplied through a `Backend` oracle record.  JavaScript
truthiness on strings (empty string is falsy) is modelled where the code
relies on it.  The api.js file in the repository contains two revisions
separated by a marker; both are embedded (suffix v1 for the first,
v2 for the second).
-/

namespace RouteOpt

/-- A stop, mirroring the Location shape used throughout the client:
name, coordinates and an optional 1-based visit_sequence. -/
structure Location where
  name : String
  lat : Int
  lon : Int
  visit_sequence : Option Int
  deriving DecidableEq, Repr

/-- Minimal JSON value universe, used for opaque backend payloads such as
the /health response body. -/
inductive JVal where
  | null : JVal
  | bool (b : Bool) : JVal
  | num (n : Int) : JVal
  | str (s : String) : JVal
  | arr (xs : List JVal) : JVal
  | obj (fields : List (String × JVal)) : JVal

/-- Optimized-route response shape (all fields optional, as the client
never validates the backend payload): stop names in optimized order,
metrics, route identifier, diagnostic arrays, and the manifest fields
merged in client-side after manifest creation. -/
structure OptimizedRoute where
  optimized_route : Option (List String)
  total_distance_km : Option Int
  total_duration_hours : Option Int
  route_id : Option String
  weather_alerts : Option (List String)
  full_log : Option (List String)
  manifest_id : Option String
  driver : Option String
  created_at : Option String
  deriving DecidableEq, Repr

/-- Body of the POST /route/summary request built by getRouteSummary. -/
structure SummaryPayload where
  optimized_route : List Location
  total_distance_km : Int
  total_duration_hours : Int
  weather_alerts : List String
  full_log : List String
  deriving DecidableEq, Repr

/-- Response of POST /create-manifest as consumed by the Home view. -/
structure Manifest where
  manifest_id : Option String
  driver : Option String
  created_at : Option String
  deriving DecidableEq, Repr

/-- Response of POST /route/summary as consumed by the Home view. -/
structure SummaryResp where
  summary : Option String
  deriving DecidableEq, Repr

/-- Response of POST /agent/chat as consumed by the Chat view. -/
structure AgentChatResp where
  agent_response : Option String
  reply : Option String
  deriving DecidableEq, Repr

/-- One HTTP request issued by the client, together with the data the
client put in it. -/
inductive Request where
  | extractSequence (request_text : String) : Request
  | optimizeRoute (parsed_locations : List Location) (session_id : Option String) : Request
  | createManifest (route_id : String) (driver_name : String) (session_id : String) : Request
  | agentStatus (session_id : Option String) : Request
  | agentChat (message : String) (session_id : Option String) : Request
  | routeSummary (payload : SummaryPayload) : Request
  | health : Request
  deriving DecidableEq, Repr

/-- Backend oracle: the response each endpoint would give if called.
An `Except.error` models a rejected network promise. -/
structure Backend where
  extractResp : Except String (Option (List Location))
  optimizeResp : Except String OptimizedRoute
  manifestResp : Except String Manifest
  summaryResp : Except String SummaryResp
  agentChatResp : Except String AgentChatResp
  healthResp : Except String JVal

/-- A JavaScript argument that is either an actual array of locations or
some non-array value (to model the Array.isArray guards). -/
inductive LocsInput where
  | arr (locations : List Location) : LocsInput
  | notArray : LocsInput
  deriving DecidableEq, Repr

/-- JavaScript truthiness of an optional string field: absent and empty
strings are falsy. -/
def jsTruthy (o : Option String) : Bool :=
  match o with
  | none => false
  | some s => s != ""

/-- JavaScript a || fallback on an optional string field. -/
def jsOrStr (o : Option String) (fallback : String) : String :=
  match o with
  | none => fallback
  | some s => if s = "" then fallback else s

/-- JavaScript String.prototype.trim, implemented over the character
list so that it evaluates by kernel reduction. -/
def jsTrim (s : String) : String :=
  String.mk (((s.data.dropWhile Char.isWhitespace).reverse.dropWhile
    Char.isWhitespace).reverse)

/-- JavaScript String.prototype.toLowerCase over the character list. -/
def jsToLower (s : String) : String :=
  String.mk (s.data.map Char.toLower)

/-- Substring occurrence on character lists. -/
def listContainsSub : List Char → List Char → Bool
  | [], pat => pat.isEmpty
  | c :: rest, pat => List.isPrefixOf pat (c :: rest) || listContainsSub rest pat

/-- JavaScript String.prototype.includes. -/
def jsIncludes (s pat : String) : Bool :=
  listContainsSub s.data pat.data

/-! api.js, first revision -/

/-- Index-passing worker for the payload map of optimizeRoute (v1):
each location keeps name, lat, lon, and gets visit_sequence defaulted
to its 1-based position when absent (the ?? index + 1 in the source). -/
def enrichDefaultGo (i : Nat) : List Location → List Location
  | [] => []
  | loc :: rest =>
      { name := loc.name, lat := loc.lat, lon := loc.lon,
        visit_sequence := some (loc.visit_sequence.getD (Int.ofNat i + 1)) }
        :: enrichDefaultGo (i + 1) rest

/-- Payload map of optimizeRoute (v1), starting at index 0. -/
def enrichDefault (locs : List Location) : List Location :=
  enrichDefaultGo 0 locs

/-- Index-passing worker for the map in optimizeFromMap: visit_sequence
is always overwritten with the 1-based position. -/
def enrichOverwriteGo (i : Nat) : List Location → List Location
  | [] => []
  | loc :: rest =>
      { name := loc.name, lat := loc.lat, lon := loc.lon,
        visit_sequence := some (Int.ofNat i + 1) }
        :: enrichOverwriteGo (i + 1) rest

/-- Location map of optimizeFromMap, starting at index 0. -/
def enrichOverwrite (locs : List Location) : List Location :=
  enrichOverwriteGo 0 locs

/-- extractSequence (both revisions): POST /extract-sequence, returning
the response body's parsed_locations field (none models a body without
a usable parsed_locations). -/
def extractSequence (requestText : String) (b : Backend) :
    Except String (Option (List Location)) × List Request :=
  (b.extractResp, [Request.extractSequence requestText])

/-- optimizeRoute, first revision: validates the input synchronously,
then POSTs the enriched payload (visit_sequence defaulted). -/
def optimizeRoute_v1 (input : LocsInput) (b : Backend) :
    Except String OptimizedRoute × List Request :=
  match input with
  | LocsInput.notArray => (Except.error "At least two locations are required.", [])
  | LocsInput.arr locs =>
      if locs.length < 2 then
        (Except.error "At least two locations are required.", [])
      else
        (b.optimizeResp, [Request.optimizeRoute (enrichDefault locs) none])

/-- processLogisticsRequest, first revision: extraction, a cardinality
guard, then optimizeRoute_v1 on exactly the extracted list. -/
def processLogisticsRequest_v1 (requestText : String) (b : Backend) :
    Except String (List Location × OptimizedRoute) × List Request :=
  match b.extractResp with
  | Except.error e => (Except.error e, [Request.extractSequence requestText])
  | Except.ok none =>
      (Except.error "At least two locations are required.",
       [Request.extractSequence requestText])
  | Except.ok (some locs) =>
      if locs.length < 2 then
        (Except.error "At least two locations are required.",
         [Request.extractSequence requestText])
      else
        match optimizeRoute_v1 (LocsInput.arr locs) b with
        | (Except.error e, reqs) =>
            (Except.error e, Request.extractSequence requestText :: reqs)
        | (Except.ok opt, reqs) =>
            (Except.ok (locs, opt), Request.extractSequence requestText :: reqs)

/-- optimizeFromMap, first revision: guard, then optimizeRoute_v1 on
locations whose visit_sequence is overwritten with the position. -/
def optimizeFromMap_v1 (input : LocsInput) (b : Backend) :
    Except String OptimizedRoute × List Request :=
  match input with
  | LocsInput.notArray => (Except.error "Select at least two locations.", [])
  | LocsInput.arr locs =>
      if locs.length < 2 then
        (Except.error "Select at least two locations.", [])
      else
        optimizeRoute_v1 (LocsInput.arr (enrichOverwrite locs)) b

/-! api.js, second revision -/

/-- optimizeRoute, second revision: same guard, but the body is the raw
parsed_locations list (no enrichment) and a session id is attached. -/
def optimizeRoute_v2 (input : LocsInput) (sessionId : Option String) (b : Backend) :
    Except String OptimizedRoute × List Request :=
  match input with
  | LocsInput.notArray => (Except.error "At least two locations are required.", [])
  | LocsInput.arr locs =>
      if locs.length < 2 then
        (Except.error "At least two locations are required.", [])
      else
        (b.optimizeResp, [Request.optimizeRoute locs sessionId])

/-- processLogisticsRequest, second revision: raw fetch of extraction,
cardinality guard, then a fetch whose body is the stringified extracted
object, hence exactly the extracted list. -/
def processLogisticsRequest_v2 (requestText : String) (sessionId : Option String)
    (b : Backend) :
    Except String (List Location × OptimizedRoute) × List Request :=
  match b.extractResp with
  | Except.error e => (Except.error e, [Request.extractSequence requestText])
  | Except.ok none =>
      (Except.error "At least two locations are required.",
       [Request.extractSequence requestText])
  | Except.ok (some locs) =>
      if locs.length < 2 then
        (Except.error "At least two locations are required.",
         [Request.extractSequence requestText])
      else
        match b.optimizeResp with
        | Except.error e =>
            (Except.error e,
             [Request.extractSequence requestText,
              Request.optimizeRoute locs sessionId])
        | Except.ok opt =>
            (Except.ok (locs, opt),
             [Request.extractSequence requestText,
              Request.optimizeRoute locs sessionId])

/-- optimizeFromMap, second revision: guard, overwrite enrichment, then
optimizeRoute_v2. -/
def optimizeFromMap_v2 (input : LocsInput) (sessionId : Option String) (b : Backend) :
    Except String OptimizedRoute × List Request :=
  match input with
  | LocsInput.notArray => (Except.error "Select at least two locations.", [])
  | LocsInput.arr locs =>
      if locs.length < 2 then
        (Except.error "Select at least two locations.", [])
      else
        optimizeRoute_v2 (LocsInput.arr (enrichOverwrite locs)) sessionId b

/-- createManifest (second revision): one POST, body from arguments. -/
def createManifest (routeId : String) (driverName : String) (sessionId : String)
    (b : Backend) : Except String Manifest × List Request :=
  (b.manifestResp, [Request.createManifest routeId driverName sessionId])

/-- sendAgentMessage: guard on the message, then POST /agent/chat with
the trimmed message. -/
def sendAgentMessage (message : String) (sessionId : Option String) (b : Backend) :
    Except String AgentChatResp × List Request :=
  if message = "" then
    (Except.error "Chat message must be a non-empty string.", [])
  else
    (b.agentChatResp, [Request.agentChat (jsTrim message) sessionId])

/-- Worker for the orderedRoute map inside getRouteSummary: walks the
optimized_route names left to right carrying the index, failing at the
first name with no matching location. -/
def buildOrderedRoute (locs : List Location) : List String → Nat → Except String (List Location)
  | [], _ => Except.ok []
  | name :: rest, i =>
      match locs.find? (fun l => l.name == name) with
      | none => Except.error ("Location not found for " ++ name)
      | some loc =>
          match buildOrderedRoute locs rest (i + 1) with
          | Except.error e => Except.error e
          | Except.ok tail =>
              Except.ok ({ name := loc.name, lat := loc.lat, lon := loc.lon,
                           visit_sequence := some (Int.ofNat i + 1) } :: tail)

/-- getRouteSummary: shape guard, per-name lookup (throwing before any
request when a name is missing), then one POST /route/summary with the
reassembled payload. -/
def getRouteSummary (optimizedResult : Option OptimizedRoute) (locations : LocsInput)
    (b : Backend) : Except String SummaryResp × List Request :=
  match optimizedResult with
  | none => (Except.error "Invalid route data for summary", [])
  | some o =>
      match o.optimized_route, locations with
      | none, _ => (Except.error "Invalid route data for summary", [])
      | some _, LocsInput.notArray => (Except.error "Invalid route data for summary", [])
      | some names, LocsInput.arr locs =>
          match buildOrderedRoute locs names 0 with
          | Except.error e => (Except.error e, [])
          | Except.ok ordered =>
              (b.summaryResp,
               [Request.routeSummary
                 { optimized_route := ordered,
                   total_distance_km := o.total_distance_km.getD 0,
                   total_duration_hours := o.total_duration_hours.getD 0,
                   weather_alerts := o.weather_alerts.getD [],
                   full_log := o.full_log.getD [] }])

/-- healthCheck (identical in both revisions): GET /health, returning
the body on success and a fixed offline object on any failure. -/
def healthCheck (b : Backend) : JVal × List Request :=
  match b.healthResp with
  | Except.ok d => (d, [Request.health])
  | Except.error _ => (JVal.obj [("status", JVal.str "offline")], [Request.health])

/-! Home.jsx: the request orchestrator. -/

/-- View stage of the Home orchestrator. -/
inductive Stage where
  | input : Stage
  | processing : Stage
  | results : Stage
  deriving DecidableEq, Repr

/-- In-memory state of the Home component (its useState slots). -/
structure HomeState where
  routeSummary : Option String
  summaryLoading : Bool
  query : String
  loading : Bool
  error : Option String
  extractedLocations : Option (List Location)
  optimizationResult : Option OptimizedRoute
  manifestCreated : Bool
  stage : Stage
  showMap : Bool
  deriving DecidableEq, Repr

/-- Initial Home state at mount. -/
def initialHomeState : HomeState :=
  { routeSummary := none, summaryLoading := false, query := "",
    loading := false, error := none, extractedLocations := none,
    optimizationResult := none, manifestCreated := false,
    stage := Stage.input, showMap := false }

/-- Parsed shape of the persisted routeContext snapshot. -/
structure RouteContext where
  locations : Option (List Location)
  optimizedRoute : Option OptimizedRoute
  manifestCreated : Bool
  routeSummary : Option String
  timestamp : String
  deriving DecidableEq, Repr

/-- Content of the sessionStorage routeContext slot: a parseable
snapshot or corrupt JSON. -/
inductive StoredVal where
  | ctx (c : RouteContext) : StoredVal
  | corrupt : StoredVal
  deriving DecidableEq, Repr

/-- The mount-time restore effect: absent slot does nothing, corrupt
JSON is deleted, and a snapshot with both locations and optimizedRoute
present restores them plus the manifest flag and the results stage.
It touches only sessionStorage, issuing no request. -/
def restoreEffect (s : HomeState) (store : Option StoredVal) :
    HomeState × Option StoredVal × List Request :=
  match store with
  | none => (s, none, [])
  | some StoredVal.corrupt => (s, none, [])
  | some (StoredVal.ctx c) =>
      if c.locations.isSome && c.optimizedRoute.isSome then
        ({ s with extractedLocations := c.locations,
                  optimizationResult := c.optimizedRoute,
                  manifestCreated := c.manifestCreated,
                  stage := Stage.results },
         some (StoredVal.ctx c), [])
      else
        (s, some (StoredVal.ctx c), [])

/-- saveToSession: overwrite the routeContext slot with a snapshot of
the given locations, optimized route, manifest flag and summary. -/
def saveToSession (locations : Option (List Location)) (optimized : OptimizedRoute)
    (manifestCreated : Bool) (routeSummary : Option String) (now : String) : StoredVal :=
  StoredVal.ctx
    { locations := locations, optimizedRoute := some optimized,
      manifestCreated := manifestCreated, routeSummary := routeSummary,
      timestamp := now }

/-- fetchRouteSummary, run to completion: calls getRouteSummary and, on
a response, stores the summary (or a fixed placeholder) in state and
re-persists the snapshot; on failure it only sets the failure text.
staleManifestCreated is the manifestCreated value captured by the
closure at the render that started the call.  Returns the new
routeSummary state value, the new storage, and the requests issued. -/
def fetchRouteSummary (optimizedRoute : OptimizedRoute) (locations : List Location)
    (staleManifestCreated : Bool) (now : String) (b : Backend)
    (store : Option StoredVal) :
    Option String × Option StoredVal × List Request :=
  match getRouteSummary (some optimizedRoute) (LocsInput.arr locations) b with
  | (Except.error _, reqs) => (some "Failed to fetch summary.", store, reqs)
  | (Except.ok resp, reqs) =>
      if jsTruthy resp.summary then
        (resp.summary,
         some (saveToSession (some locations) optimizedRoute staleManifestCreated
                resp.summary now),
         reqs)
      else
        (some "No summary available.",
         some (saveToSession (some locations) optimizedRoute staleManifestCreated
                (some "No summary available.") now),
         reqs)

/-- handleSubmit, the text flow, run to completion (including the
un-awaited summary fetch, which in the event loop resolves after the
snapshot write on line 123 of Home.jsx, so its own snapshot write comes
second).  The snapshot written by handleSubmit itself carries the
routeSummary value captured by the closure, i.e. the pre-submit one. -/
def handleSubmit (s : HomeState) (sessionId : Option String) (now : String)
    (b : Backend) (store : Option StoredVal) :
    HomeState × Option StoredVal × List Request :=
  if jsTrim s.query = "" then
    ({ s with error := some "Please enter a logistics request" }, store, [])
  else
    match sessionId with
    | none => ({ s with error := some "Initializing session... please wait." }, store, [])
    | some sid =>
        let s1 := { s with loading := true, error := none, stage := Stage.processing,
                           extractedLocations := none, optimizationResult := none,
                           manifestCreated := false }
        match processLogisticsRequest_v2 s.query (some sid) b with
        | (Except.error e, reqs) =>
            ({ s1 with error := some (if e = "" then "Something went wrong" else e),
                       stage := Stage.input, loading := false },
             store, reqs)
        | (Except.ok (locs, opt), reqs) =>
            let s2 := { s1 with extractedLocations := some locs,
                                optimizationResult := some opt,
                                stage := Stage.results }
            let store1 := some (saveToSession (some locs) opt false s.routeSummary now)
            match fetchRouteSummary opt locs s.manifestCreated now b store1 with
            | (rs, store2, reqs2) =>
                ({ s2 with routeSummary := rs, summaryLoading := false,
                           loading := false },
                 store2, reqs ++ reqs2)

/-- handleMapOptimization, the map flow, run to completion in the same
way as handleSubmit. -/
def handleMapOptimization (s : HomeState) (locations : List Location)
    (sessionId : Option String) (now : String) (b : Backend)
    (store : Option StoredVal) :
    HomeState × Option StoredVal × List Request :=
  match sessionId with
  | none => ({ s with error := some "Initializing session... please wait." }, store, [])
  | some sid =>
      let s1 := { s with showMap := false, loading := true, error := none,
                         stage := Stage.processing, extractedLocations := none,
                         optimizationResult := none, manifestCreated := false }
      match optimizeFromMap_v2 (LocsInput.arr locations) (some sid) b with
      | (Except.error e, reqs) =>
          ({ s1 with error := some (if e = "" then "Route optimization failed" else e),
                     stage := Stage.input, loading := false },
           store, reqs)
      | (Except.ok opt, reqs) =>
          let s2 := { s1 with extractedLocations := some locations,
                              optimizationResult := some opt,
                              stage := Stage.results }
          let store1 := some (saveToSession (some locations) opt false s.routeSummary now)
          match fetchRouteSummary opt locations s.manifestCreated now b store1 with
          | (rs, store2, reqs2) =>
              ({ s2 with routeSummary := rs, summaryLoading := false,
                         loading := false },
               store2, reqs ++ reqs2)

/-- handleCreateManifest: guard on a truthy route_id in the current
optimization result, guard on the session id, then one POST
/create-manifest; on success the manifest fields are merged into the
in-memory optimized route, the flag is set and the snapshot saved. -/
def handleCreateManifest (s : HomeState) (sessionId : Option String) (now : String)
    (b : Backend) (store : Option StoredVal) :
    HomeState × Option StoredVal × List Request :=
  match s.optimizationResult with
  | none =>
      ({ s with error := some "No optimized route found. Please optimize first." },
       store, [])
  | some o =>
      if jsTruthy o.route_id then
        match sessionId with
        | none =>
            ({ s with error := some "Initializing session... please try again in a moment." },
             store, [])
        | some sid =>
            let s1 := { s with loading := true, error := none }
            let rid := o.route_id.getD ""
            match createManifest rid "Driver_001" sid b with
            | (Except.error e, reqs) =>
                ({ s1 with error := some (if e = "" then "Failed to create manifest" else e),
                           loading := false },
                 store, reqs)
            | (Except.ok m, reqs) =>
                let updated := { o with manifest_id := m.manifest_id,
                                        driver := m.driver,
                                        created_at := m.created_at }
                ({ s1 with optimizationResult := some updated,
                           manifestCreated := true, error := none, loading := false },
                 some (saveToSession s.extractedLocations updated true s.routeSummary now),
                 reqs)
      else
        ({ s with error := some "No optimized route found. Please optimize first." },
         store, [])

/-- handleReset: clears query, extracted locations, optimization
result, error, stage and the manifest flag, and deletes the snapshot.
It does not touch routeSummary, summaryLoading, loading or showMap. -/
def handleReset (s : HomeState) (_store : Option StoredVal) :
    HomeState × Option StoredVal :=
  ({ s with query := "", extractedLocations := none, optimizationResult := none,
            error := none, stage := Stage.input, manifestCreated := false },
   none)

/-! Chat.jsx: the conversational view. -/

/-- Role of a chat transcript entry. -/
inductive Role where
  | user : Role
  | assistant : Role
  deriving DecidableEq, Repr

/-- One chat transcript entry. -/
structure ChatMessage where
  id : Nat
  role : Role
  content : String
  deriving DecidableEq, Repr

/-- In-memory state of the Chat component relevant to sending. -/
structure ChatState where
  messages : List ChatMessage
  typing : Bool
  deriving DecidableEq, Repr

/-- The fixed fallback assistant message appended when the chat call
fails. -/
def chatApology : String :=
  "⚠️ Unable to process your message right now. Please try again."

/-- The keyword heuristic of handleSend: the lowercased text contains
one of delay, complete, start, create. -/
def containsKeyword (text : String) : Bool :=
  let t := jsToLower text
  jsIncludes t "delay" || jsIncludes t "complete" ||
  jsIncludes t "start" || jsIncludes t "create"

/-- handleSend, run to completion.  Returns the new chat state, the
requests issued, and the delay in milliseconds of the scheduled
agent-status refresh, if one was scheduled.  The user message id is
Date.now(), modelled by the now argument. -/
def handleSend (s : ChatState) (text : String) (sessionId : Option String)
    (now : Nat) (b : Backend) : ChatState × List Request × Option Nat :=
  if jsTrim text = "" then (s, [], none)
  else
    let userMsg : ChatMessage := { id := now, role := Role.user, content := text }
    let s1 : ChatState := { messages := s.messages ++ [userMsg], typing := true }
    match sendAgentMessage text sessionId b with
    | (Except.error _, reqs) =>
        ({ messages := s1.messages ++
             [{ id := now + 1, role := Role.assistant, content := chatApology }],
           typing := false },
         reqs, none)
    | (Except.ok r, reqs) =>
        let content := jsOrStr r.agent_response (jsOrStr r.reply "I received your message.")
        ({ messages := s1.messages ++
             [{ id := now + 1, role := Role.assistant, content := content }],
           typing := false },
         reqs,
         if containsKeyword text then some 1000 else none)

/-! Concrete fixtures used by witnesses and counterexamples. -/

/-- A stop named A with a visit_sequence. -/
def locA : Location := { name := "A", lat := 1, lon := 2, visit_sequence := some 1 }

/-- A stop named B with a visit_sequence. -/
def locB : Location := { name := "B", lat := 3, lon := 4, visit_sequence := some 2 }

/-- A stop named A without a visit_sequence. -/
def locA0 : Location := { name := "A", lat := 1, lon := 2, visit_sequence := none }

/-- A stop named B without a visit_sequence. -/
def locB0 : Location := { name := "B", lat := 3, lon := 4, visit_sequence := none }

/-- A concrete optimized-route response with a route id. -/
def exOpt : OptimizedRoute :=
  { optimized_route := some ["B", "A"], total_distance_km := some 10,
    total_duration_hours := some 2, route_id := some "r1",
    weather_alerts := some [], full_log := some [],
    manifest_id := none, driver := none, created_at := none }

/-- A backend where every endpoint answers successfully. -/
def exBackend : Backend :=
  { extractResp := Except.ok (some [locA, locB]),
    optimizeResp := Except.ok exOpt,
    manifestResp := Except.ok
      { manifest_id := some "m1", driver := some "Driver_001", created_at := some "t0" },
    summaryResp := Except.ok { summary := some "A fine route." },
    agentChatResp := Except.ok { agent_response := some "On track.", reply := none },
    healthResp := Except.ok (JVal.obj [("status", JVal.str "healthy")]) }

/-- A backend where every endpoint fails. -/
def offlineBackend : Backend :=
  { extractResp := Except.error "down", optimizeResp := Except.error "down",
    manifestResp := Except.error "down", summaryResp := Except.error "down",
    agentChatResp := Except.error "down", healthResp := Except.error "down" }

/-- A backend whose chat endpoint succeeds with a body carrying neither
agent_response nor reply. -/
def emptyChatBackend : Backend :=
  { exBackend with agentChatResp := Except.ok { agent_response := none, reply := none } }

/-- A backend whose extraction returns locations lacking
visit_sequence. -/
def noSeqBackend : Backend :=
  { exBackend with extractResp := Except.ok (some [locA0, locB0]) }

/-! Theorems. -/

/-- The synchronous validation guard of optimizeRoute and
optimizeFromMap: not an array, or fewer than two entries. -/
def badLocsInput : LocsInput → Bool
  | LocsInput.notArray => true
  | LocsInput.arr locs => locs.length < 2

/-- Claim C2: for every input that is not an array or has fewer than two
locations, optimizeRoute and optimizeFromMap (both revisions) reject
with their descriptive message and issue no network request. -/
theorem optimize_validates_before_any_request (input : LocsInput) (sid : Option String)
    (b : Backend) (h : badLocsInput input = true) :
    optimizeRoute_v1 input b = (Except.error "At least two locations are required.", [])
    ∧ optimizeRoute_v2 input sid b = (Except.error "At least two locations are required.", [])
    ∧ optimizeFromMap_v1 input b = (Except.error "Select at least two locations.", [])
    ∧ optimizeFromMap_v2 input sid b = (Except.error "Select at least two locations.", []) := by
  cases input with
  | notArray => exact ⟨rfl, rfl, rfl, rfl⟩
  | arr locs =>
      simp only [badLocsInput, decide_eq_true_eq] at h
      refine ⟨?_, ?_, ?_, ?_⟩ <;>
        simp [optimizeRoute_v1, optimizeRoute_v2, optimizeFromMap_v1, optimizeFromMap_v2, h]

/-- Witness for C2: a one-element list is rejected with no request. -/
theorem optimize_validates_before_any_request_witness :
    badLocsInput (LocsInput.arr [locA]) = true
    ∧ optimizeRoute_v1 (LocsInput.arr [locA]) exBackend
        = (Except.error "At least two locations are required.", []) :=
  ⟨by decide,
   (optimize_validates_before_any_request (LocsInput.arr [locA]) (some "s") exBackend
     (by decide)).1⟩

/-- A Home state in the results stage with a fetched route summary. -/
def staleSummaryState : HomeState :=
  { initialHomeState with routeSummary := some "stale", stage := Stage.results }

/-- Claim C4, counterexample: reset does not clear the route summary.
Starting from a state whose routeSummary is set, handleReset leaves it
set, so reset does not clear every listed piece of state. -/
theorem handleReset_keeps_routeSummary_cex :
    ((handleReset staleSummaryState none).1).routeSummary ≠ none := by
  decide

/-- Claim C4, amended: reset clears query, extracted locations,
optimization result, error and the manifest flag, returns the stage to
input and deletes the snapshot, so a reload from the emptied storage
shows the initial input state without any request; the route summary
state, however, is left unchanged. -/
theorem handleReset_clears_state (s : HomeState) (store : Option StoredVal) :
    (handleReset s store).1.query = ""
    ∧ (handleReset s store).1.extractedLocations = none
    ∧ (handleReset s store).1.optimizationResult = none
    ∧ (handleReset s store).1.error = none
    ∧ (handleReset s store).1.stage = Stage.input
    ∧ (handleReset s store).1.manifestCreated = false
    ∧ (handleReset s store).1.routeSummary = s.routeSummary
    ∧ (handleReset s store).2 = none
    ∧ restoreEffect initialHomeState (handleReset s store).2
        = (initialHomeState, none, []) :=
  ⟨rfl, rfl, rfl, rfl, rfl, rfl, rfl, rfl, rfl⟩

/-- Claim C6: without an optimized result carrying a route id, the
create-manifest action only sets the descriptive error message; the
rest of the state, the storage and the request log are untouched. -/
theorem createManifest_requires_route_id (s : HomeState) (sid : Option String)
    (now : String) (b : Backend) (store : Option StoredVal)
    (h : s.optimizationResult = none ∨
         ∃ o, s.optimizationResult = some o ∧ o.route_id = none) :
    handleCreateManifest s sid now b store =
      ({ s with error := some "No optimized route found. Please optimize first." },
       store, []) := by
  rcases h with h | ⟨o, ho, hr⟩
  · simp [handleCreateManifest, h]
  · simp [handleCreateManifest, ho, hr, jsTruthy]

/-- Witness for C6: with no optimization result at all, the action
fails with the message and issues no request. -/
theorem createManifest_requires_route_id_witness :
    initialHomeState.optimizationResult = none
    ∧ handleCreateManifest initialHomeState (some "s") "t0" exBackend none =
        ({ initialHomeState with
             error := some "No optimized route found. Please optimize first." },
         none, []) :=
  ⟨rfl,
   createManifest_requires_route_id initialHomeState (some "s") "t0" exBackend none
     (Or.inl rfl)⟩

/-- Claim C10: healthCheck never rejects; it returns the backend body
on success and the fixed offline object on any failure, in both cases
after the single GET request. -/
theorem healthCheck_never_rejects (b : Backend) :
    (∀ d, b.healthResp = Except.ok d → healthCheck b = (d, [Request.health]))
    ∧ (∀ e, b.healthResp = Except.error e →
        healthCheck b = (JVal.obj [("status", JVal.str "offline")], [Request.health])) := by
  constructor
  · intro d hd; simp [healthCheck, hd]
  · intro e he; simp [healthCheck, he]

/-- Witness for C10: with a failing backend, healthCheck returns the
offline object. -/
theorem healthCheck_never_rejects_witness :
    offlineBackend.healthResp = Except.error "down"
    ∧ healthCheck offlineBackend
        = (JVal.obj [("status", JVal.str "offline")], [Request.health]) :=
  ⟨rfl, (healthCheck_never_rejects offlineBackend).2 "down" rfl⟩

/-! Claim C1: what processLogisticsRequest feeds into the optimization
call. -/

/-- The v1 enrichment keeps every location's name, latitude and
longitude, in order. -/
theorem enrichDefaultGo_proj (i : Nat) (locs : List Location) :
    (enrichDefaultGo i locs).map (fun l => (l.name, l.lat, l.lon))
      = locs.map (fun l => (l.name, l.lat, l.lon)) := by
  induction locs generalizing i with
  | nil => rfl
  | cons hd tl ih => simp [enrichDefaultGo, ih]

/-- When every location already has a visit_sequence, the v1 enrichment
is the identity. -/
theorem enrichDefaultGo_id_of_isSome (i : Nat) (locs : List Location)
    (h : ∀ l ∈ locs, l.visit_sequence.isSome) :
    enrichDefaultGo i locs = locs := by
  induction locs generalizing i with
  | nil => rfl
  | cons hd tl ih =>
      obtain ⟨v, hv⟩ := Option.isSome_iff_exists.mp (h hd (by simp))
      have htl := ih (i + 1) (fun l hl => h l (by simp [hl]))
      cases hd with
      | mk n la lo vs =>
          simp only [enrichDefaultGo, htl] at hv ⊢
          simp_all

/-- Claim C1, counterexample: in the first revision, when the extracted
locations lack visit_sequence, the body of the optimization request is
the enriched list, not exactly the extracted list. -/
theorem processLogisticsRequest_body_not_exact_cex :
    noSeqBackend.extractResp = Except.ok (some [locA0, locB0])
    ∧ (processLogisticsRequest_v1 "go" noSeqBackend).2
        = [Request.extractSequence "go",
           Request.optimizeRoute (enrichDefault [locA0, locB0]) none]
    ∧ enrichDefault [locA0, locB0] ≠ [locA0, locB0] := by
  refine ⟨rfl, rfl, by decide⟩

/-- Claim C1, amended: given a successful extraction of at least two
locations, revision two sends exactly the extracted list, in order, as
the optimization body; revision one passes exactly that list to
optimizeRoute, which sends it with only a missing visit_sequence
defaulted to the 1-based position (names, coordinates and order
preserved; the body is exactly the list whenever every entry already
has a visit_sequence).  With fewer than two extracted locations both
revisions reject with the validation error and never issue the
optimization request. -/
theorem processLogisticsRequest_feeds_optimization (t : String) (sid : Option String)
    (b : Backend) (locs : List Location)
    (hex : b.extractResp = Except.ok (some locs)) :
    (2 ≤ locs.length →
      (processLogisticsRequest_v2 t sid b).2
          = [Request.extractSequence t, Request.optimizeRoute locs sid]
      ∧ (processLogisticsRequest_v1 t b).2
          = [Request.extractSequence t,
             Request.optimizeRoute (enrichDefault locs) none]
      ∧ (enrichDefault locs).map (fun l => (l.name, l.lat, l.lon))
          = locs.map (fun l => (l.name, l.lat, l.lon))
      ∧ ((∀ l ∈ locs, l.visit_sequence.isSome) → enrichDefault locs = locs))
    ∧ (locs.length < 2 →
      processLogisticsRequest_v2 t sid b
          = (Except.error "At least two locations are required.",
             [Request.extractSequence t])
      ∧ processLogisticsRequest_v1 t b
          = (Except.error "At least two locations are required.",
             [Request.extractSequence t])) := by
  constructor
  · intro hlen
    have hnot : ¬ locs.length < 2 := Nat.not_lt.mpr hlen
    refine ⟨?_, ?_, enrichDefaultGo_proj 0 locs,
            fun h => enrichDefaultGo_id_of_isSome 0 locs h⟩
    · cases hb : b.optimizeResp <;>
        simp [processLogisticsRequest_v2, hex, hnot, hb]
    · cases hb : b.optimizeResp <;>
        simp [processLogisticsRequest_v1, optimizeRoute_v1, enrichDefault, hex, hnot, hb]
  · intro hlen
    constructor <;>
      simp [processLogisticsRequest_v2, processLogisticsRequest_v1, hex, hlen]

/-- Witness for C1 (amended): with a concrete extraction of two
locations carrying visit_sequence values, revision two's trace is the
extract request followed by the optimization request on exactly the
extracted list. -/
theorem processLogisticsRequest_feeds_optimization_witness :
    exBackend.extractResp = Except.ok (some [locA, locB])
    ∧ (processLogisticsRequest_v2 "go" (some "s") exBackend).2
        = [Request.extractSequence "go", Request.optimizeRoute [locA, locB] (some "s")] :=
  ⟨rfl,
   ((processLogisticsRequest_feeds_optimization "go" (some "s") exBackend [locA, locB]
     rfl).1 (by decide)).1⟩

/-! Claims C5 and C8: the chat send path. -/

/-- Content of the single assistant message appended for a send, as a
function of the backend outcome: the agent_response when truthy, else
the reply when truthy, else the fixed acknowledgement; the fixed
apology on failure. -/
def replyContent (b : Backend) : String :=
  match b.agentChatResp with
  | Except.ok r => jsOrStr r.agent_response (jsOrStr r.reply "I received your message.")
  | Except.error _ => chatApology

/-- Claim C5, counterexample: on a successful chat call whose body has
neither agent_response nor reply, the appended assistant message is the
fixed acknowledgement, which is neither backend reply content nor the
apology. -/
theorem handleSend_fallback_content_cex :
    emptyChatBackend.agentChatResp = Except.ok { agent_response := none, reply := none }
    ∧ (handleSend { messages := [], typing := false } "hi" (some "s") 0
        emptyChatBackend).1.messages
        = [{ id := 0, role := Role.user, content := "hi" },
           { id := 1, role := Role.assistant, content := "I received your message." }]
    ∧ "I received your message." ≠ chatApology := by
  refine ⟨rfl, rfl, by decide⟩

/-- Claim C5, amended: for every non-empty (after trimming) message,
the user message is appended first, exactly one assistant message
follows, whose content is the truthy agent_response, else the truthy
reply, else the fixed acknowledgement on success, and the fixed apology
on failure; the typing flag ends false, and exactly one chat request is
made. -/
theorem handleSend_transcript (s : ChatState) (text : String) (sid : Option String)
    (now : Nat) (b : Backend) (h : jsTrim text ≠ "") :
    (handleSend s text sid now b).1.messages
      = s.messages ++ [{ id := now, role := Role.user, content := text },
                       { id := now + 1, role := Role.assistant, content := replyContent b }]
    ∧ (handleSend s text sid now b).1.typing = false
    ∧ (handleSend s text sid now b).2.1 = [Request.agentChat (jsTrim text) sid] := by
  have hne : text ≠ "" := by
    intro he
    subst he
    exact h rfl
  cases hb : b.agentChatResp with
  | ok r =>
      refine ⟨?_, ?_, ?_⟩ <;>
        simp [handleSend, sendAgentMessage, replyContent, h, hne, hb]
  | error e =>
      refine ⟨?_, ?_, ?_⟩ <;>
        simp [handleSend, sendAgentMessage, replyContent, chatApology, h, hne, hb]

/-- Witness for C5 (amended): a concrete send against the successful
backend appends the user message and one assistant message with the
backend's agent_response. -/
theorem handleSend_transcript_witness :
    jsTrim "hi" ≠ ""
    ∧ (handleSend { messages := [], typing := false } "hi" (some "s") 0
        exBackend).1.messages
        = [{ id := 0, role := Role.user, content := "hi" },
           { id := 1, role := Role.assistant, content := replyContent exBackend }] :=
  ⟨by decide,
   (handleSend_transcript { messages := [], typing := false } "hi" (some "s") 0
     exBackend (by decide)).1⟩

/-- Claim C8, counterexample: a message containing the keyword delay
whose chat call fails schedules no status refresh, so not every sent
keyword message schedules one. -/
theorem keyword_refresh_skipped_on_failure_cex :
    containsKeyword "please delay it" = true
    ∧ (handleSend { messages := [], typing := false } "please delay it" (some "s") 0
        offlineBackend).2.2 = none := by
  refine ⟨by decide, rfl⟩

/-- Claim C8, amended: for a non-empty message whose chat call
succeeds, a refresh is scheduled one second later exactly when the
lowercased text contains delay, complete, start or create; when the
call fails, or the text contains no keyword, no refresh is scheduled. -/
theorem handleSend_schedules_refresh (s : ChatState) (text : String) (sid : Option String)
    (now : Nat) (b : Backend) (h : jsTrim text ≠ "") :
    (∀ r, b.agentChatResp = Except.ok r →
      (handleSend s text sid now b).2.2
        = (if containsKeyword text then some 1000 else none))
    ∧ (∀ e, b.agentChatResp = Except.error e →
        (handleSend s text sid now b).2.2 = none) := by
  have hne : text ≠ "" := by
    intro he
    subst he
    exact h rfl
  constructor
  · intro r hb
    simp [handleSend, sendAgentMessage, h, hne, hb]
  · intro e hb
    simp [handleSend, sendAgentMessage, h, hne, hb]

/-- Witness for C8 (amended): a successful send containing delay gets a
refresh scheduled at 1000 milliseconds. -/
theorem handleSend_schedules_refresh_witness :
    containsKeyword "please delay it" = true
    ∧ (handleSend { messages := [], typing := false } "please delay it" (some "s") 0
        exBackend).2.2 = some 1000 := by
  have happ :=
    (handleSend_schedules_refresh { messages := [], typing := false } "please delay it"
      (some "s") 0 exBackend (by decide)).1
      { agent_response := some "On track.", reply := none } rfl
  refine ⟨by decide, ?_⟩
  rw [happ]
  decide

/-- Claim C7: on a successful create-manifest call, the in-memory
optimized route gains exactly the manifest_id, driver and created_at of
the manifest response, every other field being unchanged; the
manifestCreated flag becomes true and the only request issued is the
create-manifest call, so the route is not re-fetched. -/
theorem manifest_merges_fields (s : HomeState) (sid : String) (now : String)
    (b : Backend) (store : Option StoredVal) (o : OptimizedRoute) (rid : String)
    (m : Manifest) (ho : s.optimizationResult = some o) (hrid : o.route_id = some rid)
    (hne : rid ≠ "") (hm : b.manifestResp = Except.ok m) :
    ∃ u, (handleCreateManifest s (some sid) now b store).1.optimizationResult = some u
      ∧ u.optimized_route = o.optimized_route
      ∧ u.total_distance_km = o.total_distance_km
      ∧ u.total_duration_hours = o.total_duration_hours
      ∧ u.route_id = o.route_id
      ∧ u.weather_alerts = o.weather_alerts
      ∧ u.full_log = o.full_log
      ∧ u.manifest_id = m.manifest_id
      ∧ u.driver = m.driver
      ∧ u.created_at = m.created_at
      ∧ (handleCreateManifest s (some sid) now b store).1.manifestCreated = true
      ∧ (handleCreateManifest s (some sid) now b store).2.2
          = [Request.createManifest rid "Driver_001" sid] := by
  have htr : jsTruthy (some rid) = true := by
    simp [jsTruthy, hne]
  classical
  let u : OptimizedRoute :=
    { o with manifest_id := m.manifest_id, driver := m.driver, created_at := m.created_at }
  refine ⟨u, ?_⟩
  simp [handleCreateManifest, ho, htr, createManifest, hm, hrid, u]

/-- Witness for C7: a concrete successful manifest creation against the
successful backend merges the manifest fields. -/
theorem manifest_merges_fields_witness :
    exBackend.manifestResp = Except.ok
      { manifest_id := some "m1", driver := some "Driver_001", created_at := some "t0" }
    ∧ ∃ u, (handleCreateManifest
        { initialHomeState with optimizationResult := some exOpt }
        (some "s") "t0" exBackend none).1.optimizationResult = some u
      ∧ u.manifest_id = some "m1" := by
  refine ⟨rfl, ?_⟩
  obtain ⟨u, hu, _, _, _, _, _, _, hmid, _⟩ :=
    manifest_merges_fields { initialHomeState with optimizationResult := some exOpt }
      "s" "t0" exBackend none exOpt "r1"
      { manifest_id := some "m1", driver := some "Driver_001", created_at := some "t0" }
      rfl rfl (by decide) rfl
  exact ⟨u, hu, hmid⟩

/-! Claim C9: the lookup inside getRouteSummary. -/

/-- When some name of the optimized route has no matching location, the
orderedRoute construction fails at the first such name with the
corresponding message. -/
theorem buildOrderedRoute_error_of_missing (locs : List Location) (names : List String)
    (k : Nat) (h : ∃ n ∈ names, locs.find? (fun l => l.name == n) = none) :
    ∃ n ∈ names, locs.find? (fun l => l.name == n) = none
      ∧ buildOrderedRoute locs names k
          = Except.error ("Location not found for " ++ n) := by
  induction names generalizing k with
  | nil => simp at h
  | cons name rest ih =>
      cases hf : locs.find? (fun l => l.name == name) with
      | none =>
          exact ⟨name, by simp, hf, by simp [buildOrderedRoute, hf]⟩
      | some loc =>
          obtain ⟨n, hn, hmiss⟩ := h
          have hnrest : n ∈ rest := by
            rcases List.mem_cons.mp hn with heq | hmem
            · subst heq
              rw [hf] at hmiss
              exact absurd hmiss (by simp)
            · exact hmem
          obtain ⟨n2, hn2, hmiss2, heq2⟩ := ih (k + 1) ⟨n, hnrest, hmiss⟩
          exact ⟨n2, by simp [hn2], hmiss2, by simp [buildOrderedRoute, hf, heq2]⟩

/-- When every name of the optimized route has a matching location, the
orderedRoute construction succeeds, preserves the names in order, and
assigns each stop the visit sequence position plus one (offset by the
starting index). -/
theorem buildOrderedRoute_ok_of_found (locs : List Location) (names : List String)
    (k : Nat) (h : ∀ n ∈ names, (locs.find? (fun l => l.name == n)).isSome) :
    ∃ ordered, buildOrderedRoute locs names k = Except.ok ordered
      ∧ ordered.length = names.length
      ∧ ∀ i (hi : i < ordered.length) (hi2 : i < names.length),
          (ordered.get ⟨i, hi⟩).visit_sequence = some (Int.ofNat (k + i) + 1)
          ∧ (ordered.get ⟨i, hi⟩).name = names.get ⟨i, hi2⟩ := by
  induction names generalizing k with
  | nil =>
      refine ⟨[], rfl, rfl, ?_⟩
      intro i hi
      simp at hi
  | cons name rest ih =>
      obtain ⟨loc, hloc⟩ := Option.isSome_iff_exists.mp (h name (by simp))
      have hname : loc.name = name := by
        have := List.find?_some hloc
        simpa using this
      obtain ⟨tail, htail, hlen, hidx⟩ := ih (k + 1) (fun n hn => h n (by simp [hn]))
      refine ⟨{ name := loc.name, lat := loc.lat, lon := loc.lon,
                visit_sequence := some (Int.ofNat k + 1) } :: tail,
              by simp [buildOrderedRoute, hloc, htail], by simp [hlen], ?_⟩
      intro i hi hi2
      cases i with
      | zero => simp [hname]
      | succ j =>
          have hj : j < tail.length := by
            simp at hi
            omega
          have hj2 : j < rest.length := by
            simp at hi2
            omega
          have := hidx j hj hj2
          have harith : k + 1 + j = k + (j + 1) := by omega
          constructor
          · simpa [harith] using this.1
          · simpa using this.2

/-- Claim C9: when some element of the optimized route has no location
of equal name, getRouteSummary rejects with the Location-not-found
message for such a name and issues no request; when every name matches,
the single summary request's payload lists the stops in optimized-route
order with visit_sequence equal to position plus one. -/
theorem getRouteSummary_lookup (o : OptimizedRoute) (names : List String)
    (locs : List Location) (b : Backend) (hroute : o.optimized_route = some names) :
    ((∃ n ∈ names, locs.find? (fun l => l.name == n) = none) →
      ∃ n ∈ names, locs.find? (fun l => l.name == n) = none
        ∧ getRouteSummary (some o) (LocsInput.arr locs) b
            = (Except.error ("Location not found for " ++ n), []))
    ∧ ((∀ n ∈ names, (locs.find? (fun l => l.name == n)).isSome) →
      ∃ ordered, buildOrderedRoute locs names 0 = Except.ok ordered
        ∧ getRouteSummary (some o) (LocsInput.arr locs) b
            = (b.summaryResp,
               [Request.routeSummary
                 { optimized_route := ordered,
                   total_distance_km := o.total_distance_km.getD 0,
                   total_duration_hours := o.total_duration_hours.getD 0,
                   weather_alerts := o.weather_alerts.getD [],
                   full_log := o.full_log.getD [] }])
        ∧ ordered.length = names.length
        ∧ ∀ i (hi : i < ordered.length) (hi2 : i < names.length),
            (ordered.get ⟨i, hi⟩).visit_sequence = some (Int.ofNat i + 1)
            ∧ (ordered.get ⟨i, hi⟩).name = names.get ⟨i, hi2⟩) := by
  constructor
  · intro h
    obtain ⟨n, hn, hmiss, herr⟩ := buildOrderedRoute_error_of_missing locs names 0 h
    exact ⟨n, hn, hmiss, by simp [getRouteSummary, hroute, herr]⟩
  · intro h
    obtain ⟨ordered, hok, hlen, hidx⟩ := buildOrderedRoute_ok_of_found locs names 0 h
    refine ⟨ordered, hok, by simp [getRouteSummary, hroute, hok], hlen, ?_⟩
    intro i hi hi2
    have := hidx i hi hi2
    simpa using this

/-- Witness for C9: with concrete locations A and B and optimized
order B then A, the summary request carries B first with sequence 1. -/
theorem getRouteSummary_lookup_witness :
    exOpt.optimized_route = some ["B", "A"]
    ∧ ∃ ordered, buildOrderedRoute [locA, locB] ["B", "A"] 0 = Except.ok ordered
        ∧ ordered.length = 2 := by
  refine ⟨rfl, ?_⟩
  obtain ⟨ordered, hok, _, hlen, _⟩ :=
    (getRouteSummary_lookup exOpt ["B", "A"] [locA, locB] exBackend rfl).2 (by decide)
  exact ⟨ordered, hok, by simpa using hlen⟩

/-! Claim C3: persistence after optimization and the mount-time
restore. -/

/-- The optimizeFromMap enrichment preserves the number of locations. -/
theorem enrichOverwriteGo_length (i : Nat) (locs : List Location) :
    (enrichOverwriteGo i locs).length = locs.length := by
  induction locs generalizing i with
  | nil => rfl
  | cons hd tl ih => simp [enrichOverwriteGo, ih]

/-- The storage after a completed summary fetch: either untouched (on
failure) or overwritten with a snapshot of the same locations and
optimized route and some summary text. -/
theorem fetchRouteSummary_store_cases (opt : OptimizedRoute) (locs : List Location)
    (mc : Bool) (now : String) (b : Backend) (store0 : Option StoredVal) :
    (fetchRouteSummary opt locs mc now b store0).2.1 = store0
    ∨ ∃ rs, (fetchRouteSummary opt locs mc now b store0).2.1
        = some (saveToSession (some locs) opt mc rs now) := by
  unfold fetchRouteSummary
  rcases hg : getRouteSummary (some opt) (LocsInput.arr locs) b with ⟨res, reqs⟩
  cases res with
  | error e => left; simp [hg]
  | ok resp =>
      by_cases ht : jsTruthy resp.summary = true
      · right
        exact ⟨resp.summary, by simp [hg, ht]⟩
      · right
        exact ⟨some "No summary available.", by simp [hg, ht]⟩

/-- Reading back a snapshot that holds locations and an optimized route
restores exactly them and the results stage, issuing no request. -/
theorem restore_fields (c : RouteContext) (locs : List Location) (opt : OptimizedRoute)
    (h1 : c.locations = some locs) (h2 : c.optimizedRoute = some opt) :
    (restoreEffect initialHomeState (some (StoredVal.ctx c))).1.extractedLocations = some locs
    ∧ (restoreEffect initialHomeState (some (StoredVal.ctx c))).1.optimizationResult = some opt
    ∧ (restoreEffect initialHomeState (some (StoredVal.ctx c))).1.stage = Stage.results
    ∧ (restoreEffect initialHomeState (some (StoredVal.ctx c))).2.2 = [] := by
  refine ⟨?_, ?_, ?_, ?_⟩ <;> simp [restoreEffect, h1, h2]

/-- After a successful text-flow submission, the storage holds a
snapshot of the extracted locations and the optimized route. -/
theorem handleSubmit_store (s : HomeState) (sid now : String) (b : Backend)
    (store : Option StoredVal) (locs : List Location) (opt : OptimizedRoute)
    (hq : jsTrim s.query ≠ "") (hex : b.extractResp = Except.ok (some locs))
    (hlen : 2 ≤ locs.length) (hopt : b.optimizeResp = Except.ok opt) :
    ∃ c, (handleSubmit s (some sid) now b store).2.1 = some (StoredVal.ctx c)
      ∧ c.locations = some locs ∧ c.optimizedRoute = some opt := by
  have hnot : ¬ locs.length < 2 := Nat.not_lt.mpr hlen
  rcases hF : fetchRouteSummary opt locs s.manifestCreated now b
      (some (saveToSession (some locs) opt false s.routeSummary now)) with ⟨rs, store2, reqs2⟩
  have hsub : (handleSubmit s (some sid) now b store).2.1 = store2 := by
    simp [handleSubmit, hq, processLogisticsRequest_v2, hex, hnot, hopt, hF]
  have hcases := fetchRouteSummary_store_cases opt locs s.manifestCreated now b
      (some (saveToSession (some locs) opt false s.routeSummary now))
  rw [hF] at hcases
  rcases hcases with hc | ⟨rs2, hc⟩
  · refine ⟨{ locations := some locs, optimizedRoute := some opt, manifestCreated := false, routeSummary := s.routeSummary, timestamp := now }, ?_, rfl, rfl⟩
    rw [hsub]
    exact hc
  · refine ⟨{ locations := some locs, optimizedRoute := some opt, manifestCreated := s.manifestCreated, routeSummary := rs2, timestamp := now }, ?_, rfl, rfl⟩
    rw [hsub]
    exact hc

/-- After a successful map-flow optimization, the storage holds a
snapshot of the picked locations and the optimized route. -/
theorem handleMapOptimization_store (s : HomeState) (sid now : String) (b : Backend)
    (store : Option StoredVal) (mapLocs : List Location) (opt : OptimizedRoute)
    (hmap : 2 ≤ mapLocs.length) (hopt : b.optimizeResp = Except.ok opt) :
    ∃ c, (handleMapOptimization s mapLocs (some sid) now b store).2.1 = some (StoredVal.ctx c)
      ∧ c.locations = some mapLocs ∧ c.optimizedRoute = some opt := by
  have hnot : ¬ mapLocs.length < 2 := Nat.not_lt.mpr hmap
  have hnot2 : ¬ (enrichOverwrite mapLocs).length < 2 := by
    rw [enrichOverwrite, enrichOverwriteGo_length]
    exact hnot
  rcases hF : fetchRouteSummary opt mapLocs s.manifestCreated now b
      (some (saveToSession (some mapLocs) opt false s.routeSummary now)) with ⟨rs, store2, reqs2⟩
  have hsub : (handleMapOptimization s mapLocs (some sid) now b store).2.1 = store2 := by
    simp [handleMapOptimization, optimizeFromMap_v2, optimizeRoute_v2, hnot, hnot2, hopt, hF]
  have hcases := fetchRouteSummary_store_cases opt mapLocs s.manifestCreated now b
      (some (saveToSession (some mapLocs) opt false s.routeSummary now))
  rw [hF] at hcases
  rcases hcases with hc | ⟨rs2, hc⟩
  · refine ⟨{ locations := some mapLocs, optimizedRoute := some opt, manifestCreated := false, routeSummary := s.routeSummary, timestamp := now }, ?_, rfl, rfl⟩
    rw [hsub]
    exact hc
  · refine ⟨{ locations := some mapLocs, optimizedRoute := some opt, manifestCreated := s.manifestCreated, routeSummary := rs2, timestamp := now }, ?_, rfl, rfl⟩
    rw [hsub]
    exact hc

/-- Claim C3: after a successful optimization in either flow (text or
map), the orchestrator persists a snapshot holding exactly the
locations and the optimized route, and the mount-time restore on a
fresh state reads it back, restoring the same locations, the same
optimized route and the results stage while issuing no request. -/
theorem optimization_persists_and_restores (s : HomeState) (sid now : String)
    (b : Backend) (store : Option StoredVal) (locs mapLocs : List Location)
    (opt : OptimizedRoute) (hq : jsTrim s.query ≠ "")
    (hex : b.extractResp = Except.ok (some locs)) (hlen : 2 ≤ locs.length)
    (hopt : b.optimizeResp = Except.ok opt) (hmap : 2 ≤ mapLocs.length) :
    (∃ c, (handleSubmit s (some sid) now b store).2.1 = some (StoredVal.ctx c)
      ∧ c.locations = some locs ∧ c.optimizedRoute = some opt
      ∧ (restoreEffect initialHomeState (handleSubmit s (some sid) now b store).2.1).1.extractedLocations = some locs
      ∧ (restoreEffect initialHomeState (handleSubmit s (some sid) now b store).2.1).1.optimizationResult = some opt
      ∧ (restoreEffect initialHomeState (handleSubmit s (some sid) now b store).2.1).1.stage = Stage.results
      ∧ (restoreEffect initialHomeState (handleSubmit s (some sid) now b store).2.1).2.2 = [])
    ∧ (∃ c, (handleMapOptimization s mapLocs (some sid) now b store).2.1 = some (StoredVal.ctx c)
      ∧ c.locations = some mapLocs ∧ c.optimizedRoute = some opt
      ∧ (restoreEffect initialHomeState (handleMapOptimization s mapLocs (some sid) now b store).2.1).1.extractedLocations = some mapLocs
      ∧ (restoreEffect initialHomeState (handleMapOptimization s mapLocs (some sid) now b store).2.1).1.optimizationResult = some opt
      ∧ (restoreEffect initialHomeState (handleMapOptimization s mapLocs (some sid) now b store).2.1).1.stage = Stage.results
      ∧ (restoreEffect initialHomeState (handleMapOptimization s mapLocs (some sid) now b store).2.1).2.2 = []) := by
  obtain ⟨c1, h1, h1l, h1o⟩ := handleSubmit_store s sid now b store locs opt hq hex hlen hopt
  obtain ⟨c2, h2, h2l, h2o⟩ := handleMapOptimization_store s sid now b store mapLocs opt hmap hopt
  have r1 := restore_fields c1 locs opt h1l h1o
  have r2 := restore_fields c2 mapLocs opt h2l h2o
  constructor
  · exact ⟨c1, h1, h1l, h1o,
      by rw [h1]; exact r1.1, by rw [h1]; exact r1.2.1,
      by rw [h1]; exact r1.2.2.1, by rw [h1]; exact r1.2.2.2⟩
  · exact ⟨c2, h2, h2l, h2o,
      by rw [h2]; exact r2.1, by rw [h2]; exact r2.2.1,
      by rw [h2]; exact r2.2.2.1, by rw [h2]; exact r2.2.2.2⟩

/-- A Home state with a pending query. -/
def queryState : HomeState := { initialHomeState with query := "go" }

/-- Witness for C3: a concrete successful submission persists the two
extracted locations, and the restore on a fresh mount recovers them. -/
theorem optimization_persists_and_restores_witness :
    exBackend.extractResp = Except.ok (some [locA, locB])
    ∧ (restoreEffect initialHomeState
        (handleSubmit queryState (some "s") "t0" exBackend none).2.1).1.extractedLocations
        = some [locA, locB] := by
  refine ⟨rfl, ?_⟩
  obtain ⟨⟨c, hst, hl, ho, hrl, hro, hstg, hreq⟩, h2⟩ :=
    optimization_persists_and_restores queryState "s" "t0" exBackend none
      [locA, locB] [locA, locB] exOpt (by decide) rfl (by decide) rfl (by decide)
  exact hrl

end RouteOpt
